import Mathlib

/-!
Verification development for the Sesame access-control server.

This file gives a shallow embedding, in Lean 4, of the parts of the Sesame
source that the specification talks about: the invite store
(`db/models/invite.go`), the client-certificate store
(`db/models/client_cert.go`), the two authenticators
(`web/server/handler/auth.go`), TLS certificate issuance
(`crypto/tls.go`), the firewall manager and its mock backend
(`firewall/manager.go`, `firewall/mock`), the hybrid TLS/plain listener,
and the generic request pipeline (`web/server/handler/handler.go`,
`response.go`, `pipeline.go`, `serializer.go`) together with the `/close`
endpoint handler (`web/server/api/v1/close.go`).

Conventions of the embedding:
* Byte strings are `List Nat`; Go `time.Time` is an integer timestamp whose
  zero value is `0` (matching Go's `Time.IsZero` at this abstraction);
  `time.Duration` is an integer.
* SQL statements appear at two levels, both derived from the source: the
  statement text is rebuilt exactly as the Go `fmt.Sprintf` calls build it
  (so syntax slips in the source survive into the model), and the WHERE
  clause is additionally carried as a list of atomic conditions
  (`FilterCond`) so that it can be evaluated against rows.  The database
  engine model rejects a statement whose parentheses do not balance, which
  is a necessary condition for SQLite to accept it.
* Fallible Go functions return `Except`; Go panics are a separate
  constructor where a claim depends on them.
* Code written against interfaces (the `types.Querier` used by
  `TLSAuth`, the firewall backend, the pipeline stages) is embedded as a
  function parameterised by the interface behaviour.
-/

set_option autoImplicit false

namespace Sesame

/-- Byte strings (`[]byte`) are modelled as lists of naturals. -/
abbrev Bytes := List Nat

/-- Go `time.Time`, abstracted to an integer instant; the Go zero value is `0`. -/
abbrev GoTime := Int

/-- Go `sql.Null[time.Time]`: a value plus a validity flag (zero value has
`Valid = false`). -/
structure SqlNullTime where
  V : GoTime
  Valid : Bool
deriving Repr, DecidableEq

/-- The `types.Error` of the web server: an HTTP status code with a message. -/
structure HTTPError where
  statusCode : Nat
  message : String
deriving Repr, DecidableEq

/-- Model of Go `net/http.StatusText`, restricted to the codes this server
produces. -/
def statusText (code : Nat) : String :=
  if code = 200 then "OK"
  else if code = 400 then "Bad Request"
  else if code = 401 then "Unauthorized"
  else if code = 404 then "Not Found"
  else if code = 500 then "Internal Server Error"
  else ""

/-- Parenthesis scan used by the SQL-statement well-formedness check. -/
def parenScan : List Char → Int → Bool
  | [], depth => depth == 0
  | c :: cs, depth =>
      if c = '(' then parenScan cs (depth + 1)
      else if c = ')' then decide (0 < depth) && parenScan cs (depth - 1)
      else parenScan cs depth

/-- A necessary condition for SQLite to accept a statement: its parentheses
balance.  The statements built by this code base contain no string literals,
so a plain scan is adequate. -/
def sqlParensBalanced (s : String) : Bool := parenScan s.data 0

/-! ## Database state

The persistent state touched by the claims: the `users`, `invites` and
`client_certs` tables, plus the querier's clock (`d.TimeNow()`). -/

/-- A row of the `users` table (the columns the embedded code reads). -/
structure UserRow where
  id : Nat
  name : String
deriving Repr, DecidableEq

/-- A row of the `invites` table. -/
structure InviteRow where
  id : Nat
  uuid : String
  createdAt : GoTime
  updatedAt : GoTime
  expiresAt : GoTime
  redeemedAt : Option GoTime
  userID : Nat
  siteID : String
  privateKey : Bytes
  nonce : Bytes
deriving Repr, DecidableEq

/-- A row of the `client_certs` table. -/
structure CertRow where
  id : Nat
  createdAt : GoTime
  updatedAt : GoTime
  expiresAt : GoTime
  serialNumber : String
  userID : Nat
  siteID : String
  renewalToken : Bytes
  renewalTokenExpiresAt : GoTime
deriving Repr, DecidableEq

/-- The database as seen through `types.Querier`: table contents plus the
current time reported by `TimeNow`. -/
structure DB where
  users : List UserRow
  invites : List InviteRow
  clientCerts : List CertRow
  timeNow : GoTime
deriving Repr, DecidableEq

/-- Errors of the `db/types` package (`NoResultError`, `LoadError`, ...),
plus `wrapped` for `fmt.Errorf("...: %w", err)` wrapping, which preserves
the inner error for `errors.As`. -/
inductive DBErr where
  | noResult (modelName id : String)
  | loadError (modelName msg : String)
  | scanError (modelName msg : String)
  | otherErr (msg : String)
  | wrapped (pre : String) (inner : DBErr)
deriving Repr, DecidableEq

/-- Model of `errors.As(err, &types.NoResultError{})`: whether the error
chain contains a `NoResultError`. -/
def DBErr.isNoResult : DBErr → Bool
  | .noResult _ _ => true
  | .wrapped _ inner => inner.isNoResult
  | _ => false

/-- Model of `err.Error()` for the database errors. -/
def DBErr.errString : DBErr → String
  | .noResult modelName id => modelName ++ " with " ++ id ++ " doesn't exist"
  | .loadError modelName msg => "failed loading " ++ modelName ++ ": " ++ msg
  | .scanError modelName msg => "failed scanning " ++ modelName ++ " data: " ++ msg
  | .otherErr msg => msg
  | .wrapped pre inner => pre ++ ": " ++ inner.errString

/-! ## Query filters

`types.Filter` carries a WHERE fragment plus arguments; filters are
combined with `Filter.And`, which joins the fragments with `" AND "`.
The embedding keeps the atomic conditions (with their arguments inlined) in
a list, and renders the exact SQL fragment from them, so a conjunction is
list concatenation. -/

/-- The atomic WHERE conditions built by `Invite.createFilter`,
`Invite.Load` and `ClientCertificate.createFilter`. -/
inductive FilterCond where
  | idEq (id : Nat)
  | uuidEq (uuid : String)
  | uuidLike (pre : String)
  | nonceEq (nonce : Bytes)
  | expiresAfter (t : GoTime)
  | redeemedAtIsNull
  | redeemedAtEq (t : GoTime)
  | serialEq (serial : String)
  | renewalTokenEq (tok : Bytes)
  | renewalExpiresAfter (t : GoTime)
deriving Repr, DecidableEq

/-- The SQL fragment each condition was created with (arguments are bound
separately in Go, so they stay `?` in the text). -/
def FilterCond.sqlText : FilterCond → String
  | .idEq _ => "id = ?"
  | .uuidEq _ => "uuid = ?"
  | .uuidLike _ => "uuid LIKE ?"
  | .nonceEq _ => "nonce = ?"
  | .expiresAfter _ => "expires_at > ?"
  | .redeemedAtIsNull => "redeemed_at IS NULL"
  | .redeemedAtEq _ => "redeemed_at = ?"
  | .serialEq _ => "serial_number = ?"
  | .renewalTokenEq _ => "renewal_token = ?"
  | .renewalExpiresAfter _ => "renewal_token_expires_at > ?"

/-- Render a conjunction of conditions the way chained `Filter.And` calls
do; an absent filter renders as `1=1` (see `Invites`). -/
def sqlWhere : List FilterCond → String
  | [] => "1=1"
  | [c] => c.sqlText
  | c :: cs => c.sqlText ++ " AND " ++ sqlWhere cs

/-- Evaluate one condition against an `invites` row. -/
def condMatchesInvite (c : FilterCond) (r : InviteRow) : Bool :=
  match c with
  | .idEq i => r.id == i
  | .uuidEq u => r.uuid == u
  | .uuidLike p => p.isPrefixOf r.uuid
  | .nonceEq n => r.nonce == n
  | .expiresAfter t => t < r.expiresAt
  | .redeemedAtIsNull => r.redeemedAt.isNone
  | .redeemedAtEq t => r.redeemedAt == some t
  | .serialEq _ => false
  | .renewalTokenEq _ => false
  | .renewalExpiresAfter _ => false

/-- Rows of the `invites` table matching a conjunction of conditions. -/
def invitesMatching (db : DB) (conds : List FilterCond) : List InviteRow :=
  db.invites.filter (fun r => conds.all (fun c => condMatchesInvite c r))

/-- Model of `filterCount` for the `invites` table: `SELECT COUNT(*)` with
the filter's WHERE clause (that statement is well formed). -/
def inviteFilterCount (db : DB) (conds : List FilterCond) : Nat :=
  (invitesMatching db conds).length

/-! ## The invite store (`db/models/invite.go`) -/

/-- The in-memory `models.Invite` value (Go zero values as defaults).  The
`User` pointer is the loaded owner row, `none` for a nil pointer; the
X25519 private key is kept as raw bytes. -/
structure Invite where
  ID : Nat := 0
  UUID : String := ""
  CreatedAt : GoTime := 0
  UpdatedAt : GoTime := 0
  ExpiresAt : GoTime := 0
  RedeemedAt : SqlNullTime := ⟨0, false⟩
  User : Option UserRow := none
  SiteID : String := ""
  Nonce : Bytes := []
  privKey : Bytes := []
deriving Repr, DecidableEq

/-- Model of the third-party `cuid2.IsCuid` check: 2 to 32 characters, a
lower-case letter first, lower-case letters or digits after. -/
def cuid2IsCuid (s : String) : Bool :=
  2 ≤ s.length && s.length ≤ 32 &&
    (match s.data with
     | [] => false
     | c :: cs => c.isLower && cs.all (fun d => d.isLower || d.isDigit))

/-- Whether this invite has been redeemed (`Invite.IsRedeemed`). -/
def Invite.IsRedeemed (inv : Invite) : Bool :=
  inv.RedeemedAt.Valid && !(inv.RedeemedAt.V == 0)

/-- The filter built by `Invite.createFilter`: by ID, else by UUID (prefix
match below 12 characters), else by nonce conjoined with
`expires_at > now`; then the `filterCount` guard rejects a filter matching
more rows than `limit`. -/
def Invite.createFilter (inv : Invite) (db : DB) (limit : Nat) :
    Except DBErr (List FilterCond × String) :=
  let pre : Except DBErr (List FilterCond × String) :=
    if inv.ID ≠ 0 then
      .ok ([.idEq inv.ID], "ID " ++ toString inv.ID)
    else if inv.UUID ≠ "" then
      if !cuid2IsCuid inv.UUID then
        .error (.otherErr ("invalid invite UUID: '" ++ inv.UUID ++ "'"))
      else if inv.UUID.length < 12 then
        .ok ([.uuidLike inv.UUID], "UUID '" ++ inv.UUID ++ "*'")
      else
        .ok ([.uuidEq inv.UUID], "UUID '" ++ inv.UUID ++ "'")
    else if inv.Nonce ≠ [] then
      .ok ([.nonceEq inv.Nonce, .expiresAfter db.timeNow], "nonce")
    else
      .error (.otherErr "must provide either an invite ID, UUID or token")
  match pre with
  | .error e => .error e
  | .ok (conds, filterStr) =>
      let count := inviteFilterCount db conds
      if limit < count then
        .error (.otherErr ("filter with " ++ filterStr ++ " returns " ++
          toString count ++ " results; make the filter more specific"))
      else
        .ok (conds, filterStr)

/-- The `SELECT ... FROM invites inv ...` statement exactly as `Invites`
builds it with `fmt.Sprintf`. -/
def invitesQuery (whereClause orderBy limit : String) : String :=
  "SELECT\n\t\t\tinv.id, inv.uuid, inv.created_at, inv.updated_at, inv.expires_at, inv.redeemed_at,\n\t\t\tinv.user_id, inv.site_id, inv.private_key, inv.nonce\n\t\tFROM invites inv\n\t\t"
    ++ whereClause ++ " " ++ orderBy ++ " " ++ limit

/-- Convert the matching rows into `models.Invite` values, loading each
row's user as `Invites` does (a missing user surfaces a `LoadError`; an
X25519 private key that is not 32 bytes fails to parse). -/
def invitesScanRows (db : DB) : List InviteRow → Except DBErr (List Invite)
  | [] => .ok []
  | r :: rs =>
      match db.users.find? (fun u => u.id == r.userID) with
      | none => .error (.loadError "invite user"
          ("user with ID " ++ toString r.userID ++ " doesn't exist"))
      | some user =>
          if r.privateKey.length ≠ 32 then
            .error (.otherErr "failed loading X25519 private key: invalid key size")
          else
            match invitesScanRows db rs with
            | .error e => .error e
            | .ok invs =>
                .ok ({ ID := r.id, UUID := r.uuid, CreatedAt := r.createdAt,
                       UpdatedAt := r.updatedAt, ExpiresAt := r.expiresAt,
                       RedeemedAt := match r.redeemedAt with
                         | some t => ⟨t, true⟩
                         | none => ⟨0, false⟩,
                       User := some user, SiteID := r.siteID,
                       Nonce := r.nonce, privKey := r.privateKey } :: invs)

/-- Model of `models.Invites`: build the query text, have the engine check
it, then evaluate the filter (with its LIMIT) and scan the rows. -/
def Invites (db : DB) (conds : List FilterCond) (limit : Nat) (orderBy : String) :
    Except DBErr (List Invite) :=
  let orderByClause := if orderBy ≠ "" then "ORDER BY " ++ orderBy else ""
  let limitClause := if 0 < limit then "LIMIT " ++ toString limit else ""
  let query := invitesQuery ("WHERE " ++ sqlWhere conds) orderByClause limitClause
  if !sqlParensBalanced query then
    .error (.loadError "invites" "SQL syntax error")
  else
    let rows := invitesMatching db conds
    let rows := if 0 < limit then rows.take limit else rows
    invitesScanRows db rows

/-- Model of `Invite.Load`: create the filter, conjoin the `RedeemedAt`
condition (`Valid=false` filters for NULL; `Valid=true` with a non-zero
time filters for equality), run `Invites`, and fail with `NoResultError`
when nothing matches. -/
def Invite.Load (inv : Invite) (db : DB) : Except DBErr Invite :=
  match inv.createFilter db 1 with
  | .error e => .error (.wrapped "failed creating query filter" e)
  | .ok (conds, filterStr) =>
      let conds :=
        if !inv.RedeemedAt.Valid then conds ++ [.redeemedAtIsNull]
        else if !(inv.RedeemedAt.V == 0) then conds ++ [.redeemedAtEq inv.RedeemedAt.V]
        else conds
      match Invites db conds 1 "" with
      | .error e => .error e
      | .ok [] => .error (.noResult "invite" filterStr)
      | .ok (i :: _) => .ok i

/-- The WHERE clause of the `UPDATE invites ...` statement issued by
`Invite.Save` in update mode: exactly the rendering of the filter from
`Invite.createFilter`, with nothing conjoined to it. -/
def Invite.updateWhereSQL (inv : Invite) (db : DB) : Except DBErr String :=
  match inv.createFilter db 1 with
  | .error e => .error (.wrapped "failed creating query filter" e)
  | .ok (conds, _) => .ok (sqlWhere conds)

/-- Model of `Invite.Save` in update mode: `UPDATE invites SET
updated_at = ? [, expires_at = ?][, redeemed_at = ?][, site_id = ?]
WHERE <filter>`.  Affected rows are the rows matching the filter; zero
affected rows is a `NoResultError`. -/
def Invite.SaveUpdate (inv : Invite) (db : DB) : Except DBErr (Invite × DB) :=
  let timeNow := db.timeNow
  match inv.createFilter db 1 with
  | .error e => .error (.wrapped "failed creating query filter" e)
  | .ok (conds, filterStr) =>
      let applySet : InviteRow → InviteRow := fun r =>
        let r := { r with updatedAt := timeNow }
        let r := if inv.ExpiresAt ≠ 0 then { r with expiresAt := inv.ExpiresAt } else r
        let r := if inv.IsRedeemed then { r with redeemedAt := some inv.RedeemedAt.V } else r
        if inv.SiteID ≠ "" then { r with siteID := inv.SiteID } else r
      let n := (invitesMatching db conds).length
      if n == 0 then
        .error (.noResult "invite" filterStr)
      else
        let db2 := { db with invites := db.invites.map (fun r =>
          if conds.all (fun c => condMatchesInvite c r) then applySet r else r) }
        .ok ({ inv with UpdatedAt := timeNow }, db2)

/-- Model of `Invite.Redeem`: reject an in-memory value that is already
redeemed, otherwise set `RedeemedAt = t` and save with `update = true`. -/
def Invite.Redeem (inv : Invite) (db : DB) (t : GoTime) : Except DBErr (Invite × DB) :=
  if inv.IsRedeemed then
    .error (.otherErr "invite is already redeemed")
  else
    Invite.SaveUpdate { inv with RedeemedAt := ⟨t, true⟩ } db

/-! ## Invite-token authentication (`InviteTokenAuth`, steps 3 and 7)

The authenticator runs against the database; the steps the claims are
about are the nonce lookup (step 3) and the redeem call (step 7). -/

/-- Step 3 of `InviteTokenAuth`: look the invite up by the token's nonce
(on a fresh `models.Invite` whose `RedeemedAt` has its zero value), map
`NoResultError` to 401 "invite not found" and any other error to 400. -/
def inviteTokenAuthLookup (db : DB) (nonce : Bytes) : Except HTTPError Invite :=
  let inv : Invite := { Nonce := nonce }
  match inv.Load db with
  | .error e =>
      if e.isNoResult then .error ⟨401, "invite not found"⟩
      else .error ⟨400, e.errString⟩
  | .ok i => .ok i

/-- Step 7 of `InviteTokenAuth`: redeem the loaded invite; any error is
mapped to a 500 response. -/
def inviteTokenAuthRedeem (db : DB) (inv : Invite) (now : GoTime) :
    Except HTTPError (Invite × DB) :=
  match inv.Redeem db now with
  | .error e => .error ⟨500, e.errString⟩
  | .ok r => .ok r

/-! ## mTLS authentication (`TLSAuth`)

`TLSAuth` reads the request's TLS connection state and loads the user
through the `types.Querier` interface; the embedding takes the user-load
behaviour as a function, so that both not-found and database failures can
be exercised. -/

/-- The fields of an X.509 certificate that `TLSAuth` reads. -/
structure VerifiedCert where
  subjectCommonName : String
deriving Repr, DecidableEq

/-- The `r.TLS` connection state: `nil` is `none`; otherwise the verified
chains, each a list of certificates with the leaf first. -/
structure TLSConnState where
  verifiedChains : List (List VerifiedCert)
deriving Repr, DecidableEq

/-- Model of the `TLSAuth` authenticator: reject requests without a
non-empty verified chain with 401 "failed TLS authentication"; otherwise
load the user named by the leaf's Subject Common Name, and on any load
error reject with 401 "failed loading user identified in the client TLS
certificate". -/
def TLSAuth (loadUser : String → Except DBErr UserRow) (tls : Option TLSConnState) :
    Except HTTPError UserRow :=
  match tls with
  | none => .error ⟨401, "failed TLS authentication"⟩
  | some st =>
      match st.verifiedChains with
      | [] => .error ⟨401, "failed TLS authentication"⟩
      | chain :: _ =>
          match chain with
          | [] => .error ⟨401, "failed TLS authentication"⟩
          | leaf :: _ =>
              match loadUser leaf.subjectCommonName with
              | .error _ => .error ⟨401,
                  "failed loading user identified in the client TLS certificate"⟩
              | .ok u => .ok u

/-! ## TLS certificate issuance (`crypto/tls.go`) -/

/-- Go `x509.KeyUsage` bit values used by `NewTLSCert`. -/
def keyUsageDigitalSignature : Nat := 1

/-- The `x509.KeyUsageKeyEncipherment` bit. -/
def keyUsageKeyEncipherment : Nat := 4

/-- The `x509.KeyUsageCertSign` bit. -/
def keyUsageCertSign : Nat := 32

/-- The extended key usages this code base sets. -/
inductive ExtKeyUsage where
  | serverAuth
  | clientAuth
deriving Repr, DecidableEq

/-- The fields of the `x509.Certificate` template that `createCertTemplate`
fills in. -/
structure CertTemplate where
  serialNumber : Nat
  subjectOrganization : List String
  subjectCommonName : String
  isCA : Bool
  dnsNames : List String
  notBefore : GoTime
  notAfter : GoTime
  keyUsage : Nat
  extKeyUsage : List ExtKeyUsage
  basicConstraintsValid : Bool
deriving Repr, DecidableEq

/-- Model of `createCertTemplate` (the random serial number is an input).
Note that the extended key usage list is the same in both CA and leaf
modes. -/
def createCertTemplate (subjectName : String) (san : List String)
    (timeNow expiration : GoTime) (isCA : Bool) (keyUsage : Nat)
    (serialNumber : Nat) : CertTemplate :=
  { serialNumber := serialNumber
    subjectOrganization := ["HACKfixme"]
    subjectCommonName := subjectName
    isCA := isCA
    dnsNames := san
    notBefore := timeNow
    notAfter := expiration
    keyUsage := keyUsage
    extKeyUsage := [.serverAuth, .clientAuth]
    basicConstraintsValid := true }

/-- Model of Go `tls.Certificate`: the parsed view of the DER chain, the
private key (tracked by an opaque identifier), and the optional parsed
leaf. -/
structure TLSCert where
  Certificate : List CertTemplate
  PrivateKeyId : Nat
  Leaf : Option CertTemplate
deriving Repr, DecidableEq

/-- Model of `ExtractCert`: with `ca = false` return the leaf (or the first
chain element); with `ca = true` return the cached leaf if it is a CA, else
the first CA certificate found in the chain. -/
def ExtractCert (cert : TLSCert) (ca : Bool) : Except String CertTemplate :=
  match cert.Certificate with
  | [] => .error "no certificate data found"
  | first :: rest =>
      if !ca then
        match cert.Leaf with
        | some leaf => .ok leaf
        | none => .ok first
      else
        match cert.Leaf with
        | some leaf =>
            if leaf.isCA then .ok leaf
            else
              match (first :: rest).find? (fun c => c.isCA) with
              | some c => .ok c
              | none => .error "no CA certificate found in chain"
        | none =>
            match (first :: rest).find? (fun c => c.isCA) with
            | some c => .ok c
            | none => .error "no CA certificate found in chain"

/-- The result of creating a certificate: the new `tls.Certificate` plus a
record of which private key produced the signature. -/
structure IssuedCert where
  cert : CertTemplate
  tlsCert : TLSCert
  signedWithKeyId : Nat
deriving Repr, DecidableEq

/-- Model of `createTLSCertFromTemplate`: with a parent, extract the CA
certificate from it and sign with `parent.PrivateKey`; otherwise self-sign
with the new private key. -/
def createTLSCertFromTemplate (template : CertTemplate) (privKeyId : Nat)
    (parent : Option TLSCert) : Except String IssuedCert :=
  match parent with
  | some par =>
      match ExtractCert par true with
      | .error e => .error ("failed to extract CA certificate from parent: " ++ e)
      | .ok _ =>
          .ok { cert := template
                tlsCert := { Certificate := [template], PrivateKeyId := privKeyId,
                             Leaf := some template }
                signedWithKeyId := par.PrivateKeyId }
  | none =>
      .ok { cert := template
            tlsCert := { Certificate := [template], PrivateKeyId := privKeyId,
                         Leaf := some template }
            signedWithKeyId := privKeyId }

/-- Model of `NewTLSCert` (the random serial number and the fresh Ed25519
key pair are inputs): in self-signed CA mode (`parent = none`) the key
usage is digital-signature, cert-sign and key-encipherment with `IsCA`;
in leaf mode only digital-signature, signed via the parent. -/
def NewTLSCert (subjectName : String) (san : List String)
    (timeNow expiration : GoTime) (parent : Option TLSCert)
    (serialNumber newKeyId : Nat) : Except String IssuedCert :=
  let isCA := parent.isNone
  let keyUsage :=
    if parent.isNone then
      keyUsageDigitalSignature ||| keyUsageCertSign ||| keyUsageKeyEncipherment
    else
      keyUsageDigitalSignature
  let template := createCertTemplate subjectName san timeNow expiration isCA
    keyUsage serialNumber
  createTLSCertFromTemplate template newKeyId parent

/-! ## Firewall manager and mock backend (`firewall/manager.go`,
`firewall/mock`)

The manager iterates over `ipSet.Ranges()`; the embedding keeps an IP set
as the list of its range strings (`ipRange.String()` values), which is all
the manager and the mock read from it. -/

/-- The `models.Service` fields the firewall manager reads. -/
structure Service where
  Name : String
  Port : Nat
  MaxAccessDuration : Int
deriving Repr, DecidableEq

/-- The result of running a piece of Go code that may fail with an error or
panic. -/
inductive GoResult (α : Type) where
  | ok (a : α)
  | err (msg : String)
  | panicked (msg : String)
deriving Repr, DecidableEq

/-- The mock firewall state: `Allowed` maps an IP-range string to a map
from port to expiry time; `failErr` simulates backend errors, and `ts` is
the time source. -/
structure MockFirewall where
  Allowed : List (String × List (Nat × GoTime))
  failErr : Option String
  now : GoTime
deriving Repr, DecidableEq

/-- Association-list update used to model Go map assignment. -/
def alistSet {α β : Type} [BEq α] (l : List (α × β)) (k : α) (v : β) : List (α × β) :=
  match l with
  | [] => [(k, v)]
  | (k2, v2) :: rest =>
      if k2 == k then (k, v) :: rest else (k2, v2) :: alistSet rest k v

/-- Model of `Mock.Allow`: on a configured failure return it; otherwise
look up the range's port map.  When the range is present, the shared map is
updated.  When it is absent the Go code stores a fresh map under the range
key but then assigns through the old `nil` map value
(`ports[destPort] = ...`), which panics. -/
def MockFirewall.Allow (m : MockFirewall) (ipRange : String) (destPort : Nat)
    (duration : Int) : GoResult MockFirewall :=
  match m.failErr with
  | some e => .err e
  | none =>
      match m.Allowed.find? (fun kv => kv.1 == ipRange) with
      | some (_, ports) =>
          let ports2 := alistSet ports destPort (m.now + duration)
          .ok { m with Allowed := alistSet m.Allowed ipRange ports2 }
      | none => .panicked "assignment to entry in nil map"

/-- The per-range loop of `Manager.AllowAccess`. -/
def allowRanges (m : MockFirewall) (svc : Service) (duration : Int) :
    List String → GoResult MockFirewall
  | [] => .ok m
  | ipRange :: rest =>
      match m.Allow ipRange svc.Port duration with
      | .ok m2 => allowRanges m2 svc duration rest
      | .err e => .err ("failed creating access for client IP range '" ++ ipRange ++
          "' to service " ++ svc.Name ++ ": " ++ e)
      | .panicked msg => .panicked msg

/-- Model of `Manager.AllowAccess` over the mock backend: clamp the
duration to the service maximum, default a zero duration to the manager's
configured default, then register every range of the set. -/
def AllowAccess (m : MockFirewall) (defaultAccessDuration : Int)
    (ipSet : List String) (svc : Service) (duration : Int) : GoResult MockFirewall :=
  let duration := if svc.MaxAccessDuration < duration then
    min duration svc.MaxAccessDuration else duration
  let duration := if duration == 0 then defaultAccessDuration else duration
  allowRanges m svc duration ipSet

/-! ## Hybrid listener (`HybridListener.Accept`) -/

/-- The error of the 3-byte peek on a fresh connection. -/
inductive PeekErr where
  | eof
  | other (msg : String)
deriving Repr, DecidableEq

/-- What `Accept` does with one accepted connection. -/
inductive AcceptOutcome where
  /-- A TLS server connection is returned (`connClosed` records whether the
  underlying connection was closed first, which happens on an EOF peek). -/
  | tlsConn (connClosed : Bool)
  /-- The plain peek connection is returned. -/
  | plainConn (connClosed : Bool)
  /-- The peek error is propagated to the caller (connection closed). -/
  | errorOut (msg : String)
  /-- The goroutine panics (out-of-range slice index). -/
  | panicked (msg : String)
deriving Repr, DecidableEq

/-- Model of `HybridListener.Accept` after the underlying `Accept`
succeeded, as a function of the peek result `(b, err) = Peek(3)`.  On a
peek error the connection is closed and non-EOF errors return; the code
then indexes `b[0]`, `b[1]`, `b[2]` left to right with Go's short-circuit
`&&`, which panics when the peeked slice is too short. -/
def hybridAccept (b : Bytes) (e : Option PeekErr) : AcceptOutcome :=
  let closed := e.isSome
  match e with
  | some (.other msg) => .errorOut msg
  | _ =>
      match b with
      | [] => .panicked "index out of range [0] with length 0"
      | b0 :: brest =>
          if b0 == 0x16 then
            match brest with
            | [] => .panicked "index out of range [1] with length 1"
            | b1 :: brest2 =>
                if b1 == 0x03 then
                  match brest2 with
                  | [] => .panicked "index out of range [2] with length 2"
                  | b2 :: _ =>
                      if b2 ≤ 0x03 then .tlsConn closed else .plainConn closed
                else .plainConn closed
          else .plainConn closed

/-! ## Client-certificate store (`db/models/client_cert.go`) -/

/-- The in-memory `models.ClientCertificate` value (Go zero values as
defaults). -/
structure ClientCertificate where
  ID : Nat := 0
  CreatedAt : GoTime := 0
  UpdatedAt : GoTime := 0
  ExpiresAt : GoTime := 0
  SerialNumber : String := ""
  User : Option UserRow := none
  SiteID : String := ""
  RenewalToken : Bytes := []
  RenewalTokenExpiresAt : GoTime := 0
deriving Repr, DecidableEq

/-- Evaluate one condition against a `client_certs` row. -/
def condMatchesCert (c : FilterCond) (r : CertRow) : Bool :=
  match c with
  | .idEq i => r.id == i
  | .serialEq s => r.serialNumber == s
  | .renewalTokenEq tok => r.renewalToken == tok
  | .renewalExpiresAfter t => t < r.renewalTokenExpiresAt
  | _ => false

/-- Rows of the `client_certs` table matching a conjunction of
conditions. -/
def certsMatching (db : DB) (conds : List FilterCond) : List CertRow :=
  db.clientCerts.filter (fun r => conds.all (fun c => condMatchesCert c r))

/-- The filter built by `ClientCertificate.createFilter`: by ID, else by
serial number, else by renewal token conjoined with
`renewal_token_expires_at > now`; then the `filterCount` guard. -/
def ClientCertificate.createFilter (cc : ClientCertificate) (db : DB) (limit : Nat) :
    Except DBErr (List FilterCond × String) :=
  let pre : Except DBErr (List FilterCond × String) :=
    if cc.ID ≠ 0 then
      .ok ([.idEq cc.ID], "ID " ++ toString cc.ID)
    else if cc.SerialNumber ≠ "" then
      .ok ([.serialEq cc.SerialNumber], "serial number '" ++ cc.SerialNumber ++ "'")
    else if cc.RenewalToken ≠ [] then
      .ok ([.renewalTokenEq cc.RenewalToken, .renewalExpiresAfter db.timeNow],
        "renewal token")
    else
      .error (.otherErr
        "must provide either a client certificate ID, serial number or renewal token")
  match pre with
  | .error e => .error e
  | .ok (conds, filterStr) =>
      let count := (certsMatching db conds).length
      if limit < count then
        .error (.otherErr ("filter with " ++ filterStr ++ " returns " ++
          toString count ++ " results; make the filter more specific"))
      else
        .ok (conds, filterStr)

/-- The `SELECT ... FROM client_certs cc ...` statement exactly as
`ClientCertificates` builds it with `fmt.Sprintf`, including the stray
closing parenthesis after `cc.renewal_token_expires_at` in the source. -/
def clientCertsQuery (whereClause limit : String) : String :=
  "SELECT\n\t\t\tcc.id, cc.created_at, cc.updated_at, cc.expires_at, cc.serial_number, cc.user_id,\n\t\t\tcc.site_id, cc.renewal_token, cc.renewal_token_expires_at)\n\t\tFROM client_certs cc\n\t\t"
    ++ whereClause ++ " ORDER BY cc.expires_at ASC " ++ limit

/-- Model of `models.ClientCertificates`: build the query text, have the
engine check it, then evaluate the filter and scan the rows. -/
def ClientCertificates (db : DB) (conds : List FilterCond) (limit : Nat) :
    Except DBErr (List ClientCertificate) :=
  let limitClause := if 0 < limit then "LIMIT " ++ toString limit else ""
  let query := clientCertsQuery ("WHERE " ++ sqlWhere conds) limitClause
  if !sqlParensBalanced query then
    .error (.loadError "client certificates" "SQL syntax error")
  else
    let rows := certsMatching db conds
    let rows := if 0 < limit then rows.take limit else rows
    .ok (rows.map (fun r =>
      { ID := r.id, CreatedAt := r.createdAt, UpdatedAt := r.updatedAt,
        ExpiresAt := r.expiresAt, SerialNumber := r.serialNumber,
        User := db.users.find? (fun u => u.id == r.userID), SiteID := r.siteID,
        RenewalToken := r.renewalToken,
        RenewalTokenExpiresAt := r.renewalTokenExpiresAt }))

/-- Model of `ClientCertificate.Load`: create the filter, run
`ClientCertificates`, and fail with `NoResultError` when nothing
matches. -/
def ClientCertificate.Load (cc : ClientCertificate) (db : DB) :
    Except DBErr ClientCertificate :=
  match cc.createFilter db 1 with
  | .error e => .error (.wrapped "failed creating query filter" e)
  | .ok (conds, filterStr) =>
      match ClientCertificates db conds 1 with
      | .error e => .error e
      | .ok [] => .error (.noResult "client certificate" filterStr)
      | .ok (c :: _) => .ok c

/-! ## The request pipeline (`web/server/handler`)

The pipeline is generic over the request type; the response envelope is
the `BaseResponse` interface surface (status code, status text, typed
error, headers) that every endpoint response embeds.  Go mutation of the
request and response values is made explicit by returning the updated
value; the handler additionally reports the firewall-manager calls it
performed, so that invocation (or not) of the firewall is observable. -/

/-- The per-request `context.Context` slots used by the handlers
(`shared_key` and `response_data`); an unset slot reads as an empty byte
string. -/
structure Ctx where
  sharedKey : Option Bytes := none
  responseData : Option Bytes := none
deriving Repr, DecidableEq

/-- Model of `getSharedKey`. -/
def getSharedKey (ctx : Ctx) : Bytes :=
  match ctx.sharedKey with
  | some k => k
  | none => []

/-- Model of `getResponseData`. -/
def getResponseData (ctx : Ctx) : Bytes :=
  match ctx.responseData with
  | some d => d
  | none => []

/-- Model of `setResponseData`. -/
def setResponseData (ctx : Ctx) (d : Bytes) : Ctx := { ctx with responseData := some d }

/-- Model of `setSharedKey`. -/
def setSharedKey (ctx : Ctx) (k : Bytes) : Ctx := { ctx with sharedKey := some k }

/-- The `types.ErrorLevel` values. -/
inductive ErrorLevel where
  | none
  | minimal
  | full
deriving Repr, DecidableEq

/-- A Go `error` value reaching the pipeline's error funnel: either a typed
`*types.Error` (found by `errors.As`) or a plain error with only a
message. -/
inductive GoError where
  | typed (e : HTTPError)
  | plain (msg : String)
deriving Repr, DecidableEq

/-- The response envelope: the `BaseResponse` fields the pipeline
manipulates through the `types.Response` interface.  The zero value
(`createInstance`) has status code `0` and no error. -/
structure RespEnv where
  statusCode : Nat := 0
  status : String := ""
  error : Option HTTPError := none
  headers : List (String × String) := []
deriving Repr, DecidableEq

/-- Header lookup (`http.Header.Get`; all keys used here are already in
canonical form). -/
def headerGet (h : List (String × String)) (k : String) : String :=
  match h.find? (fun kv => kv.1 == k) with
  | some kv => kv.2
  | none => ""

/-- Header update (`http.Header.Set`). -/
def headerSet (h : List (String × String)) (k v : String) : List (String × String) :=
  alistSet h k v

/-- Model of `BaseResponse.GetStatusCode`: fall back to the error's status
code when the response's own code is unset. -/
def RespEnv.GetStatusCode (r : RespEnv) : Nat :=
  if r.statusCode == 0 then
    match r.error with
    | some e => if 0 < e.statusCode then e.statusCode else r.statusCode
    | none => r.statusCode
  else r.statusCode

/-- Model of `BaseResponse.SetStatusCode`: also refreshes the status
text. -/
def RespEnv.SetStatusCode (r : RespEnv) (code : Nat) : RespEnv :=
  { r with statusCode := code, status := statusText code }

/-- Model of `sanitizeError`: level `none` drops the error, `minimal`
replaces the message with a generic string per status class, `full` keeps
it. -/
def sanitizeError (terr : HTTPError) (lvl : ErrorLevel) : Option HTTPError :=
  match lvl with
  | .none => Option.none
  | .minimal =>
      if terr.statusCode == 401 then some ⟨terr.statusCode, "authentication failed"⟩
      else if terr.statusCode == 400 then some ⟨terr.statusCode, "invalid request"⟩
      else some ⟨terr.statusCode, "request failed"⟩
  | .full => some terr

/-- Model of the closure returned by `errorHandler`, applied to a non-nil
error: normalize to a typed error with a 500 fallback, sanitize it per the
error level, and record status code and error on the response. -/
def handleErrGo (lvl : ErrorLevel) (resp : RespEnv) (err : GoError) : RespEnv :=
  let norm : HTTPError × Nat :=
    match err with
    | .plain msg => (⟨500, msg⟩, 500)
    | .typed e => if e.statusCode == 0 then (⟨500, e.message⟩, 500) else (e, e.statusCode)
  let terr := sanitizeError norm.1 lvl
  let statusCode :=
    match terr with
    | some t => t.statusCode
    | none => norm.2
  { resp.SetStatusCode statusCode with error := terr }

/-- The `handler.Serializer` interface. -/
structure SerializerM (Req : Type) where
  deserialize : Ctx → Req → Ctx × Req × Option GoError
  serialize : Ctx → RespEnv → Ctx × RespEnv × Option GoError

/-- Calls made to the firewall manager by an endpoint handler. -/
inductive FWCall where
  | denyAccess (ipSet : List String) (serviceName : String) (userName : Option String)
  | allowAccess (ipSet : List String) (serviceName : String) (duration : Int)
deriving Repr, DecidableEq

/-- The `handler.Pipeline` value: optional authenticator, optional
serializer, the processor lists, and the error level. -/
structure Pipeline (Req : Type) where
  auth : Option (Ctx → Req → Ctx × Req × Option GoError) := Option.none
  serializer : Option (SerializerM Req) := Option.none
  requestProcessors : List (Ctx → Req → Ctx × Req × Option GoError) := []
  responseProcessors : List (Ctx → RespEnv → Ctx × RespEnv × Option GoError) := []
  errorLevel : ErrorLevel

/-- What the pipeline hands to `http.ResponseWriter`: one status code and
one body (`Handle` writes at most once per request). -/
structure Written where
  statusCode : Nat
  body : Bytes
  contentType : String
deriving Repr, DecidableEq

/-- Go `[]byte(s)` for the ASCII strings this server writes. -/
def strBytes (s : String) : Bytes := s.data.map Char.toNat

/-- Model of `writeResponse`: fall back to the typed error's message when
no response data was produced, default the content type, and write the
response's status code and the data. -/
def writeResponse (ctx : Ctx) (resp : RespEnv) : Written :=
  let data := getResponseData ctx
  let data :=
    match resp.error with
    | some terr => if data.isEmpty then strBytes terr.message else data
    | none => data
  let ct := headerGet resp.headers "Content-Type"
  let ct := if ct == "" then "application/octet-stream" else ct
  { statusCode := resp.GetStatusCode, body := data, contentType := ct }

/-- The response-processor loop of the deferred block in `Handle`: an error
funnels into the response and breaks the loop, but the write still
happens. -/
def runRespProcessors (lvl : ErrorLevel) :
    List (Ctx → RespEnv → Ctx × RespEnv × Option GoError) → Ctx → RespEnv → Ctx × RespEnv
  | [], ctx, resp => (ctx, resp)
  | proc :: rest, ctx, resp =>
      match proc ctx resp with
      | (ctx2, resp2, some e) => (ctx2, handleErrGo lvl resp2 e)
      | (ctx2, resp2, none) => runRespProcessors lvl rest ctx2 resp2

/-- The deferred block of `Handle` (stages 6-8): bind the writer's header
map, serialize the response — a serialization error records the error and
returns without reaching the write —, run the response processors, and
write. -/
def responsePhase {Req : Type} (p : Pipeline Req) (ctx : Ctx) (resp : RespEnv) :
    Option Written :=
  let resp := { resp with headers := [] }
  match p.serializer with
  | some s =>
      match s.serialize ctx resp with
      | (_, _, some _) => Option.none
      | (ctx2, resp2, none) =>
          let step := runRespProcessors p.errorLevel p.responseProcessors ctx2 resp2
          some (writeResponse step.1 step.2)
  | none =>
      let step := runRespProcessors p.errorLevel p.responseProcessors ctx resp
      some (writeResponse step.1 step.2)

/-- The pre-allocated response instance (`createInstance` of the response
type): the zero value of the envelope. -/
def createInstanceResp : RespEnv := {}

/-- The request-processor loop (stage 4): an error funnels into the
pre-allocated response and skips the remaining request stages. -/
def runReqProcessors {Req : Type} (lvl : ErrorLevel) :
    List (Ctx → Req → Ctx × Req × Option GoError) → Ctx → Req → RespEnv →
      (Ctx × RespEnv) ⊕ (Ctx × Req)
  | [], ctx, req, _ => .inr (ctx, req)
  | proc :: rest, ctx, req, resp =>
      match proc ctx req with
      | (ctx2, _, some e) => .inl (ctx2, handleErrGo lvl resp e)
      | (ctx2, req2, none) => runReqProcessors lvl rest ctx2 req2 resp

/-- Stages 4 and 5 of `Handle`: the request processors and the endpoint
handler.  A nil handler response keeps the pre-allocated one; a handler
error funnels through `errorHandler`; the handler's firewall calls are
reported alongside the written response. -/
def handleStages45 {Req : Type} (p : Pipeline Req)
    (handlerFn : Ctx → Req → Option RespEnv × Option GoError × List FWCall)
    (ctx : Ctx) (req : Req) : Option Written × List FWCall :=
  match runReqProcessors p.errorLevel p.requestProcessors ctx req createInstanceResp with
  | .inl (ctx2, resp) => (responsePhase p ctx2 resp, [])
  | .inr (ctx2, req2) =>
      let step := handlerFn ctx2 req2
      let resp :=
        match step.1 with
        | some r => r
        | none => createInstanceResp
      let resp :=
        match step.2.1 with
        | some e => handleErrGo p.errorLevel resp e
        | none => resp
      (responsePhase p ctx2 resp, step.2.2)

/-- Stage 3 of `Handle`: request validation, when the request type
implements `Validate`. -/
def handleStage3 {Req : Type} (p : Pipeline Req)
    (validate : Option (Req → Option GoError))
    (handlerFn : Ctx → Req → Option RespEnv × Option GoError × List FWCall)
    (ctx : Ctx) (req : Req) : Option Written × List FWCall :=
  match validate with
  | some v =>
      match v req with
      | some e => (responsePhase p ctx (handleErrGo p.errorLevel createInstanceResp e), [])
      | none => handleStages45 p handlerFn ctx req
  | none => handleStages45 p handlerFn ctx req

/-- Stage 2 of `Handle`: request deserialization. -/
def handleStage2 {Req : Type} (p : Pipeline Req)
    (validate : Option (Req → Option GoError))
    (handlerFn : Ctx → Req → Option RespEnv × Option GoError × List FWCall)
    (ctx : Ctx) (req : Req) : Option Written × List FWCall :=
  match p.serializer with
  | some s =>
      match s.deserialize ctx req with
      | (ctx2, _, some e) =>
          (responsePhase p ctx2 (handleErrGo p.errorLevel createInstanceResp e), [])
      | (ctx2, req2, none) => handleStage3 p validate handlerFn ctx2 req2
  | none => handleStage3 p validate handlerFn ctx req

/-- Model of `handler.Handle` for one request: run authentication,
deserialization, validation, the request processors and the handler in
order, funnelling the first error into the response and skipping the
remaining request stages; the response stages (`responsePhase`) run in
every case. -/
def Handle {Req : Type} (p : Pipeline Req)
    (validate : Option (Req → Option GoError))
    (handlerFn : Ctx → Req → Option RespEnv × Option GoError × List FWCall)
    (ctx0 : Ctx) (req0 : Req) : Option Written × List FWCall :=
  match p.auth with
  | some a =>
      match a ctx0 req0 with
      | (ctx1, _, some e) =>
          (responsePhase p ctx1 (handleErrGo p.errorLevel createInstanceResp e), [])
      | (ctx1, req1, none) => handleStage2 p validate handlerFn ctx1 req1
  | none => handleStage2 p validate handlerFn ctx0 req0

/-! ## The JSON serializer and the response processors

`json.Marshal` of the endpoint response envelopes (embedded
`BaseResponse` fields in declaration order, `Error` with `omitempty` and
only its `message` field, then a `data` object that is empty for the
zero-valued `CloseResponse`/`JoinResponse`) is reproduced textually; the
messages this server emits need no JSON string escaping.  Marshalling
these envelopes cannot fail. -/

/-- The `"status_code":...,"status":...[,"error":...]` part of the
envelope's JSON encoding. -/
def marshalBaseRespFields (r : RespEnv) : String :=
  "\"status_code\":" ++ toString r.statusCode ++ ",\"status\":\"" ++ r.status ++ "\"" ++
    (match r.error with
     | some e => ",\"error\":\x7b\"message\":\"" ++ e.message ++ "\"\x7d"
     | none => "")

/-- The JSON encoding of a `CloseResponse` or of a `JoinResponse` whose
`Data` still has its zero value (both marshal their empty data struct as
an empty object, the `JoinResponseData` byte fields being `omitempty`). -/
def marshalRespEmptyData (r : RespEnv) : String :=
  "\x7b" ++ marshalBaseRespFields r ++ ",\"data\":\x7b\x7d" ++ "\x7d"

/-- The `Serialize` half of `JSONSerializer` for a given envelope
encoding: store the marshalled bytes in the `response_data` context slot
and set the JSON content type.  The `Deserialize` half decodes the request
body and is supplied per instantiation. -/
def jsonSerializer {Req : Type}
    (deserializeBody : Ctx → Req → Ctx × Req × Option GoError)
    (marshal : RespEnv → String) : SerializerM Req :=
  { deserialize := deserializeBody
    serialize := fun ctx resp =>
      let data := strBytes (marshal resp)
      (setResponseData ctx data,
       { resp with headers := headerSet resp.headers "Content-Type" "application/json" },
       Option.none) }

/-- The base58 alphabet of `mr-tron/base58`. -/
def base58Alphabet : List Char :=
  "123456789ABCDEFGHJKLMNPQRSTUVWXYZabcdefghijkmnopqrstuvwxyz".data

/-- Division loop for the base-58 digits, with enough fuel to terminate
structurally (`n / 58 < n` for positive `n`, so `n` units suffice). -/
def natToBase58Aux : Nat → Nat → List Nat
  | _, 0 => []
  | 0, _ + 1 => []
  | fuel + 1, n + 1 => natToBase58Aux fuel ((n + 1) / 58) ++ [(n + 1) % 58]

/-- The base-58 digits of a natural number, most significant first. -/
def natToBase58Digits (n : Nat) : List Nat := natToBase58Aux n n

/-- A byte string read as a big-endian natural number. -/
def bytesToNat (b : Bytes) : Nat := b.foldl (fun acc x => acc * 256 + x) 0

/-- The number of leading zero bytes (each becomes a leading `1`). -/
def countLeadingZeroBytes : Bytes → Nat
  | [] => 0
  | b :: rest => if b = 0 then countLeadingZeroBytes rest + 1 else 0

/-- Model of `base58.Encode`. -/
def encodeBase58 (b : Bytes) : String :=
  let digits := natToBase58Digits (bytesToNat b)
  String.mk (List.replicate (countLeadingZeroBytes b) '1' ++
    digits.map (fun d => base58Alphabet.getD d '1'))

/-- Model of the `Encrypt` response processor: a no-op without a shared
key in the context; otherwise encrypt the current response data with the
AEAD (taken as a function, keyed on the shared key) and set the binary
content type. -/
def EncryptProc (encryptSym : Bytes → Bytes → Except String Bytes)
    (ctx : Ctx) (resp : RespEnv) : Ctx × RespEnv × Option GoError :=
  let sharedKey := getSharedKey ctx
  let data := getResponseData ctx
  if sharedKey.isEmpty then (ctx, resp, Option.none)
  else
    match encryptSym sharedKey data with
    | .error e => (ctx, resp, some (.plain ("failed encrypting response: " ++ e)))
    | .ok data2 =>
        (setResponseData ctx data2,
         { resp with headers := headerSet resp.headers "Content-Type" "application/octet-stream" },
         Option.none)

/-- Model of the `EncodeBase58` response processor. -/
def EncodeBase58Proc (ctx : Ctx) (resp : RespEnv) : Ctx × RespEnv × Option GoError :=
  let data := getResponseData ctx
  let enc := encodeBase58 data
  (setResponseData ctx (strBytes enc),
   { resp with headers := headerSet resp.headers "Content-Type" "application/octet-stream" },
   Option.none)

/-! ## The `/close` endpoint (`web/server/api/v1/close.go`) -/

/-- The `types.CloseRequest` fields (the embedded `BaseRequest` contributes
the `User` set by the authenticator). -/
structure CloseRequest where
  User : Option UserRow := none
  Clients : List String := []
  ServiceName : String := ""
deriving Repr, DecidableEq

/-- Model of `CloseRequest.Validate`: the user must be present, the
service name non-empty, and the clients list non-empty. -/
def CloseRequest.Validate (r : CloseRequest) : Option GoError :=
  if r.User.isNone then
    some (.typed ⟨401, "user object not found in the request context"⟩)
  else if r.ServiceName == "" then
    some (.typed ⟨400, "service name must not be empty"⟩)
  else if r.Clients.isEmpty then
    some (.typed ⟨400, "clients must not be empty"⟩)
  else
    Option.none

/-- Model of `Handler.Close`: an empty clients list falls back to the
close-for-all set, the clients are parsed into an IP set, the service is
loaded, and `fwMgr.DenyAccess(ipSet, svc, req.User)` is invoked
(`ParseToIPSet`, the service store and the deny outcome are interface
behaviour taken as parameters). -/
def CloseHandler (parseToIPSet : List String → Except String (List String))
    (svcLoad : String → Except DBErr Service)
    (denyAccessErr : Option String)
    (_ctx : Ctx) (req : CloseRequest) : Option RespEnv × Option GoError × List FWCall :=
  match req.User with
  | none => (Option.none, some (.typed ⟨401, "user object not found in the request context"⟩), [])
  | some user =>
      let clients := if req.Clients.isEmpty then ["0.0.0.0/0", "::/0"] else req.Clients
      match parseToIPSet clients with
      | .error e => (Option.none, some (.typed ⟨400, e⟩), [])
      | .ok ipSet =>
          match svcLoad req.ServiceName with
          | .error e => (Option.none, some (.typed ⟨400, e.errString⟩), [])
          | .ok svc =>
              let call := FWCall.denyAccess ipSet svc.Name (some user.name)
              match denyAccessErr with
              | some e => (Option.none, some (.typed ⟨400, e⟩), [call])
              | none =>
                  (some { statusCode := 200, status := statusText 200 }, Option.none, [call])

/-- The `types.JoinRequest` fields (only the `User` from the embedded
`BaseRequest`; the body is ignored by `/join`). -/
structure JoinRequest where
  User : Option UserRow := none
deriving Repr, DecidableEq

/-- Model of `JoinRequest.Validate`. -/
def JoinRequest.Validate (r : JoinRequest) : Option GoError :=
  if r.User.isNone then
    some (.typed ⟨401, "user object not found in the request context"⟩)
  else
    Option.none

/-! ## Concrete instances used by the theorems -/

/-- A stored invite row: active (not redeemed, expires at 100). -/
def c1Row : InviteRow :=
  { id := 1, uuid := "inviteuuid0a", createdAt := 10, updatedAt := 10, expiresAt := 100,
    redeemedAt := none, userID := 1, siteID := "home",
    privateKey := List.replicate 32 0, nonce := [7, 8] }

/-- A database holding the single active invite, at time 50. -/
def c1DB : DB := { users := [⟨1, "alice"⟩], invites := [c1Row], clientCerts := [], timeNow := 50 }

/-- The in-memory `models.Invite` value obtained by loading `c1Row` (as two
concurrent `/join` requests for the same token would each hold). -/
def c1Invite : Invite :=
  { ID := 1, UUID := "inviteuuid0a", CreatedAt := 10, UpdatedAt := 10, ExpiresAt := 100,
    RedeemedAt := ⟨0, false⟩, User := some ⟨1, "alice"⟩, SiteID := "home",
    Nonce := [7, 8], privKey := List.replicate 32 0 }

/-- A database in which the invite row is gone, so the redeem UPDATE
affects zero rows. -/
def c1EmptyDB : DB := { users := [⟨1, "alice"⟩], invites := [], clientCerts := [], timeNow := 50 }

/-- A database whose single invite row carrying nonce `[7, 8]` is
redeemed. -/
def c2WitnessDB : DB :=
  { users := [⟨1, "alice"⟩],
    invites := [{ id := 1, uuid := "inviteuuid0a", createdAt := 10, updatedAt := 60,
                  expiresAt := 100, redeemedAt := some 60, userID := 1, siteID := "home",
                  privateKey := List.replicate 32 0, nonce := [7, 8] }],
    clientCerts := [], timeNow := 50 }

/-- Serializer of the `/close` pipeline instantiated with a request body
that decoded to an empty `clients` list and service name `s`. -/
def c5Serializer (s : String) : SerializerM CloseRequest :=
  jsonSerializer
    (fun ctx req => (ctx, { req with Clients := [], ServiceName := s }, Option.none))
    marshalRespEmptyData

/-- The `/close` (`httpsPipeline`) configuration: mTLS authentication that
succeeded for user `u`, the JSON serializer, error level `full`. -/
def c5Pipeline (u : UserRow) (s : String) : Pipeline CloseRequest :=
  { auth := some (fun ctx req => (ctx, { req with User := some u }, Option.none)),
    serializer := some (c5Serializer s),
    errorLevel := .full }

/-- The `/close` handler with interface behaviour that always succeeds. -/
def c5Handler : Ctx → CloseRequest → Option RespEnv × Option GoError × List FWCall :=
  CloseHandler (fun cs => .ok cs) (fun _ => .ok ⟨"web", 8080, 3600⟩) Option.none

/-- A request serializer whose `Serialize` fails (for a response the
declared marshaller cannot encode). -/
def c7BadSerializer : SerializerM Unit :=
  { deserialize := fun ctx req => (ctx, req, Option.none),
    serialize := fun ctx resp => (ctx, resp, some (.plain "marshal failure")) }

/-- A pipeline whose response serialization fails. -/
def c7BadPipeline : Pipeline Unit :=
  { serializer := some c7BadSerializer, errorLevel := .full }

/-- A serializer whose `Serialize` always succeeds (the JSON one). -/
def c7GoodSerializer : SerializerM Unit :=
  jsonSerializer (fun ctx req => (ctx, req, Option.none)) marshalRespEmptyData

/-- An authenticator failing with 401 (as `TLSAuth` does without a client
certificate). -/
def c7Auth : Ctx → Unit → Ctx × Unit × Option GoError :=
  fun ctx req => (ctx, req, some (.typed ⟨401, "failed TLS authentication"⟩))

/-- A handler that is never reached. -/
def c7Handler0 : Ctx → Unit → Option RespEnv × Option GoError × List FWCall :=
  fun _ _ => (Option.none, Option.none, [])

/-- A pipeline with the JSON serializer, used to witness the amended
pipeline claim. -/
def c7GoodPipeline : Pipeline Unit :=
  { auth := some c7Auth,
    serializer := some c7GoodSerializer,
    errorLevel := .full }

/-- An invite-token authenticator failing with 401 "invite not found". -/
def c8WitnessAuth : Ctx → Unit → Ctx × Unit × Option GoError :=
  fun ctx req => (ctx, req, some (.typed ⟨401, "invite not found"⟩))

/-- A bare pipeline (no serializer, no processors) at level `minimal`,
whose authentication fails. -/
def c8WitnessPipeline : Pipeline Unit :=
  { auth := some c8WitnessAuth, errorLevel := .minimal }

/-- The `/join` (`httpPipeline`) configuration with the configured error
level set to `none`: invite-token authentication (failing here with the
401 "invite not found" of a replayed token), the JSON serializer, and the
`Encrypt` and `EncodeBase58` response processors. -/
def c8JoinPipeline : Pipeline JoinRequest :=
  { auth := some (fun ctx req => (ctx, req, some (.typed ⟨401, "invite not found"⟩))),
    serializer := some (jsonSerializer (fun ctx req => (ctx, req, Option.none))
      marshalRespEmptyData),
    responseProcessors := [EncryptProc (fun _ _ => .error "unreached"), EncodeBase58Proc],
    errorLevel := .none }

/-- The `/join` handler is never reached in the C8 scenario. -/
def c8Handler : Ctx → JoinRequest → Option RespEnv × Option GoError × List FWCall :=
  fun _ _ => (Option.none, Option.none, [])

/-- The self-signed CA template of a server certificate (key usage
digital-signature, cert-sign and key-encipherment). -/
def c4CATemplate : CertTemplate :=
  createCertTemplate "server" ["site1"] 0 1000 true
    (keyUsageDigitalSignature ||| keyUsageCertSign ||| keyUsageKeyEncipherment) 5

/-- The server's `tls.Certificate` acting as the signing parent. -/
def c4ParentCA : TLSCert :=
  { Certificate := [c4CATemplate], PrivateKeyId := 7, Leaf := some c4CATemplate }

/-- A mock firewall with no registered ranges. -/
def c6FreshMock : MockFirewall := { Allowed := [], failErr := none, now := 0 }

/-- A mock firewall in which the range already has a (shared) port map. -/
def c6SeededMock : MockFirewall :=
  { Allowed := [("192.168.1.100-192.168.1.100", [])], failErr := none, now := 0 }

/-- The `web` service of the manager tests: port 8080, maximum access
duration one hour. -/
def c6Service : Service := { Name := "web", Port := 8080, MaxAccessDuration := 3600 }

/-! ## Theorems

Helper lemmas first, then one theorem per claim (with its counterexample
and witness where applicable). -/

deriving instance DecidableEq for Except

set_option maxRecDepth 8000

/-- Filtering with a stronger predicate keeps at most as many elements. -/
theorem length_filter_le_of_imp {α : Type} (p q : α → Bool)
    (h : ∀ a, p a = true → q a = true) :
    ∀ l : List α, (l.filter p).length ≤ (l.filter q).length
  | [] => Nat.le_refl 0
  | a :: l => by
      have ih := length_filter_le_of_imp p q h l
      by_cases hp : p a = true
      · rw [List.filter_cons_of_pos hp, List.filter_cons_of_pos (h a hp)]
        exact Nat.succ_le_succ ih
      · rw [List.filter_cons_of_neg (by simpa using hp)]
        by_cases hq : q a = true
        · rw [List.filter_cons_of_pos hq]
          exact Nat.le_succ_of_le ih
        · rw [List.filter_cons_of_neg (by simpa using hq)]
          exact ih

/-- A scan that meets an unmatched closing parenthesis fails, whatever
comes after. -/
theorem parenScan_unbalanced :
    ∀ xs : List Char, '(' ∉ xs → ')' ∈ xs →
      ∀ cs : List Char, parenScan (xs ++ cs) 0 = false
  | [], _, hcp, _ => absurd hcp (List.not_mem_nil _)
  | c :: xs, hnp, hcp, cs => by
      have hco : ¬(c = '(') := fun h => hnp (h ▸ List.mem_cons_self c xs)
      by_cases hcc : c = ')'
      · subst hcc
        simp [parenScan]
      · have hcp2 : ')' ∈ xs := by
          rcases List.mem_cons.mp hcp with h | h
          · exact absurd h.symm hcc
          · exact h
        have hrec := parenScan_unbalanced xs (fun h => hnp (List.mem_cons_of_mem c h)) hcp2 cs
        simpa [parenScan, hco, hcc] using hrec

/-- An `Invites` query whose filter matches nothing returns the empty
list (provided the statement is accepted). -/
theorem Invites_matching_nil (db : DB) (conds : List FilterCond) (limit : Nat)
    (orderBy : String)
    (hq : sqlParensBalanced (invitesQuery ("WHERE " ++ sqlWhere conds)
      (if orderBy ≠ "" then "ORDER BY " ++ orderBy else "")
      (if 0 < limit then "LIMIT " ++ toString limit else "")) = true)
    (hm : invitesMatching db conds = []) :
    Invites db conds limit orderBy = .ok [] := by
  unfold Invites
  simp [hm, invitesScanRows]
  simpa using hq

/-- C1: the claim states that `Invite.Redeem` updates the invite row with
the predicate `id = ? AND redeemed_at IS NULL`, that a zero-rows-affected
update makes `/join` answer 401 "invite already redeemed", and that at
most one redemption can succeed per invite.  Evaluating the embedded code
at the failing input shows otherwise: the UPDATE's WHERE clause for a
loaded invite is `id = ?` alone, two redemptions of separately loaded
copies of the same active invite row both succeed, and a failing redeem is
answered by `InviteTokenAuth` with a 500 carrying the raw error, not a
401. -/
theorem c1_invite_redeem_not_single_use :
    Invite.updateWhereSQL c1Invite c1DB = .ok "id = ?"
    ∧ (match Invite.Redeem c1Invite c1DB 60 with
       | .ok (_, db1) => (Invite.Redeem c1Invite db1 70).isOk
       | .error _ => false) = true
    ∧ inviteTokenAuthRedeem c1EmptyDB c1Invite 60
        = .error ⟨500, "invite with ID 1 doesn't exist"⟩ :=
  ⟨by decide, by decide, by decide⟩

/-- C2: for every database in which all invite rows carrying nonce `n` are
redeemed (and the unique index keeps at most one row per nonce), the
lookup step of `InviteTokenAuth` — `Invite.Load` with `RedeemedAt` unset,
which conjoins `redeemed_at IS NULL` onto the nonce filter built with
`expires_at > now` — finds nothing, so the authenticator answers 401
"invite not found": a sequential replay of a redeemed `/join` token is
always rejected, though not with a redemption-conflict error. -/
theorem c2_redeemed_invite_replay_rejected (db : DB) (n : Bytes)
    (hne : n ≠ [])
    (huniq : (db.invites.filter (fun r => r.nonce == n)).length ≤ 1)
    (hred : ∀ r ∈ db.invites, r.nonce = n → r.redeemedAt.isSome) :
    inviteTokenAuthLookup db n = .error ⟨401, "invite not found"⟩ := by
  have hcount : inviteFilterCount db
      [FilterCond.nonceEq n, FilterCond.expiresAfter db.timeNow] ≤ 1 := by
    refine le_trans ?_ huniq
    refine length_filter_le_of_imp _ _ ?_ db.invites
    intro r hr
    simp only [List.all_cons, List.all_nil, Bool.and_true, Bool.and_eq_true,
      condMatchesInvite] at hr
    exact hr.1
  have hpre : ({ Nonce := n } : Invite).createFilter db 1
      = Except.ok ([FilterCond.nonceEq n, FilterCond.expiresAfter db.timeNow], "nonce") := by
    unfold Invite.createFilter
    simp only [ne_eq, hne, not_false_eq_true, if_true, if_neg, not_true_eq_false,
      ite_false, ite_true]
    simp [hne, Nat.not_lt.mpr hcount]
  have hmatch : invitesMatching db [FilterCond.nonceEq n, FilterCond.expiresAfter db.timeNow,
      FilterCond.redeemedAtIsNull] = [] := by
    rw [invitesMatching, List.filter_eq_nil_iff]
    intro r hr hall
    simp only [List.all_cons, List.all_nil, Bool.and_true, Bool.and_eq_true,
      condMatchesInvite] at hall
    obtain ⟨h1, _, h3⟩ := hall
    have hsome := hred r hr (by exact eq_of_beq h1)
    rw [Option.isNone_iff_eq_none] at h3
    rw [h3] at hsome
    simp at hsome
  have hinv : Invites db ([FilterCond.nonceEq n, FilterCond.expiresAfter db.timeNow] ++
      [FilterCond.redeemedAtIsNull]) 1 "" = .ok [] := by
    refine Invites_matching_nil db _ 1 "" ?_ hmatch
    rfl
  have hload : Invite.Load { Nonce := n } db = .error (.noResult "invite" "nonce") := by
    unfold Invite.Load
    rw [hpre]
    simp only [Bool.not_false, if_true, hinv]
  unfold inviteTokenAuthLookup
  simp only [hload]
  rfl

/-- C2 witness: a two-table database with one redeemed invite; the
hypotheses hold by computation and the replayed lookup is rejected with
401 "invite not found". -/
theorem c2_redeemed_invite_replay_rejected_witness :
    (([7, 8] : Bytes) ≠ []
      ∧ ((c2WitnessDB.invites.filter (fun r => r.nonce == [7, 8])).length ≤ 1))
    ∧ inviteTokenAuthLookup c2WitnessDB [7, 8] = .error ⟨401, "invite not found"⟩ :=
  ⟨⟨by decide, by decide⟩,
    c2_redeemed_invite_replay_rejected c2WitnessDB [7, 8] (by decide) (by decide)
      (by decide)⟩

/-- C3 counterexample: the claim states that a user-load failure other
than not-found makes `TLSAuth` return 500.  At a database-error input the
embedded authenticator answers 401 (with the one catch-all message), not
500. -/
theorem c3_db_error_returns_401_not_500 :
    TLSAuth (fun _ => .error (.loadError "users" "disk I/O error"))
        (some ⟨[[⟨"alice"⟩]]⟩)
      = .error ⟨401, "failed loading user identified in the client TLS certificate"⟩
    ∧ (401 : Nat) ≠ 500 :=
  ⟨rfl, by decide⟩

/-- C3 amended: in mTLS authentication, after extracting the leaf
certificate's Subject Common Name, any failure to load the user by that
name — not-found or database error alike — is answered with 401 "failed
loading user identified in the client TLS certificate"; there is no 500
branch. -/
theorem c3_amended_any_load_error_401 (loadUser : String → Except DBErr UserRow)
    (st : TLSConnState) (leaf : VerifiedCert) (chain : List VerifiedCert)
    (chains : List (List VerifiedCert)) (e : DBErr)
    (hch : st.verifiedChains = (leaf :: chain) :: chains)
    (hload : loadUser leaf.subjectCommonName = .error e) :
    TLSAuth loadUser (some st)
      = .error ⟨401, "failed loading user identified in the client TLS certificate"⟩ := by
  simp only [TLSAuth, hch, hload]

/-- C3 witness: the amended theorem applied to a concrete connection state
and a concrete not-found load failure. -/
theorem c3_amended_any_load_error_401_witness :
    (({ verifiedChains := [[⟨"bob"⟩]] } : TLSConnState).verifiedChains
        = ((⟨"bob"⟩ : VerifiedCert) :: []) :: []
      ∧ (fun (_ : String) => (.error (.noResult "user" "name 'bob'") :
          Except DBErr UserRow)) (VerifiedCert.subjectCommonName ⟨"bob"⟩)
        = .error (.noResult "user" "name 'bob'"))
    ∧ TLSAuth (fun _ => .error (.noResult "user" "name 'bob'"))
        (some { verifiedChains := [[⟨"bob"⟩]] })
      = .error ⟨401, "failed loading user identified in the client TLS certificate"⟩ :=
  ⟨⟨rfl, rfl⟩,
    c3_amended_any_load_error_401 (fun _ => .error (.noResult "user" "name 'bob'"))
      { verifiedChains := [[⟨"bob"⟩]] } ⟨"bob"⟩ [] [] (.noResult "user" "name 'bob'")
      rfl rfl⟩

/-- C4 counterexample: the claim states that a leaf certificate's extended
key usage is exactly client-auth.  The template sets server-auth and
client-auth in both modes, so the leaf issued here carries both. -/
theorem c4_leaf_extkeyusage_not_only_clientauth :
    (match NewTLSCert "alice" ["site1"] 0 100 (some c4ParentCA) 99 11 with
     | .ok issued => issued.cert.extKeyUsage
     | .error _ => []) = [ExtKeyUsage.serverAuth, ExtKeyUsage.clientAuth]
    ∧ ([ExtKeyUsage.serverAuth, ExtKeyUsage.clientAuth] : List ExtKeyUsage)
        ≠ [ExtKeyUsage.clientAuth] :=
  ⟨by decide, by decide⟩

/-- C4 amended: every certificate issued by `NewTLSCert` with a parent for
which a CA certificate can be extracted is a non-CA leaf with key usage
exactly digital-signature, extended key usage server-auth and client-auth,
and is signed with the CA's private key. -/
theorem c4_amended_leaf_cert_properties (subjectName : String) (san : List String)
    (timeNow expiration : GoTime) (par : TLSCert) (serial keyid : Nat)
    (pc : CertTemplate) (hpar : ExtractCert par true = .ok pc) :
    ∃ issued,
      NewTLSCert subjectName san timeNow expiration (some par) serial keyid = .ok issued
      ∧ issued.cert.keyUsage = keyUsageDigitalSignature
      ∧ issued.cert.extKeyUsage = [ExtKeyUsage.serverAuth, ExtKeyUsage.clientAuth]
      ∧ issued.cert.isCA = false
      ∧ issued.signedWithKeyId = par.PrivateKeyId := by
  unfold NewTLSCert createTLSCertFromTemplate
  simp only [Option.isNone_some, Bool.false_eq_true, if_false, hpar]
  exact ⟨_, rfl, rfl, rfl, rfl, rfl⟩

/-- C4 witness: the amended theorem applied to the concrete parent CA. -/
theorem c4_amended_leaf_cert_properties_witness :
    ExtractCert c4ParentCA true = .ok c4CATemplate
    ∧ ∃ issued,
        NewTLSCert "alice" ["site1"] 0 100 (some c4ParentCA) 99 11 = .ok issued
        ∧ issued.cert.keyUsage = keyUsageDigitalSignature
        ∧ issued.cert.extKeyUsage = [ExtKeyUsage.serverAuth, ExtKeyUsage.clientAuth]
        ∧ issued.cert.isCA = false
        ∧ issued.signedWithKeyId = c4ParentCA.PrivateKeyId :=
  ⟨by decide,
    c4_amended_leaf_cert_properties "alice" ["site1"] 0 100 c4ParentCA 99 11
      c4CATemplate (by decide)⟩

/-- C6: the claim (and the manager's own test) expects
`Manager.AllowAccess` to register each range with the service port and a
clamped expiry.  With the mock backend, registering a range that has no
entry yet panics: `Mock.Allow` stores a fresh map under the range key but
assigns the port through the old nil map value.  The same call on a mock
whose range already has a (shared) port map registers the clamped expiry
as the claim describes. -/
theorem c6_allow_access_panics_on_fresh_range :
    AllowAccess c6FreshMock 300 ["192.168.1.100-192.168.1.100"] c6Service 1800
      = .panicked "assignment to entry in nil map"
    ∧ AllowAccess c6SeededMock 300 ["192.168.1.100-192.168.1.100"] c6Service 7200
      = .ok { Allowed := [("192.168.1.100-192.168.1.100", [(8080, 3600)])],
              failErr := none, now := 0 } :=
  ⟨by decide, by decide⟩

/-- C9: the claim states that an EOF during the 3-byte peek is treated as
a normal non-TLS connection terminator with no panic.  When the peer
closes the connection before 3 bytes are available, the EOF branch falls
through to the `b[0]`/`b[1]`/`b[2]` indexing and panics on the short
peeked slice; closing and propagation of non-EOF errors, and the TLS/plain
dispatch on a full peek, behave as specified. -/
theorem c9_accept_panics_on_empty_eof_peek :
    hybridAccept [] (some .eof) = .panicked "index out of range [0] with length 0"
    ∧ hybridAccept [0x16] (some .eof) = .panicked "index out of range [1] with length 1"
    ∧ hybridAccept [] (some (.other "connection reset")) = .errorOut "connection reset"
    ∧ hybridAccept [0x16, 0x03, 0x01] Option.none = .tlsConn false
    ∧ hybridAccept [0x47, 0x45, 0x54] Option.none = .plainConn false :=
  ⟨by decide, by decide, by decide, by decide, by decide⟩

/-- C5 counterexample: the claim states that a `/close` request with an
empty `clients` list (valid mTLS user, non-empty service name) leads to
`DenyAccess` being invoked with the close-for-all set.  Run through the
pipeline, such a request is rejected by `CloseRequest.Validate` with 400
"clients must not be empty" and the handler never runs: no firewall call
is made.  The close-for-all fallback exists only inside the handler body,
as the direct invocation in the second conjunct shows. -/
theorem c5_empty_clients_rejected_no_deny :
    Handle (c5Pipeline ⟨1, "alice"⟩ "web") (some CloseRequest.Validate) c5Handler {} {}
      = (some ⟨400,
          strBytes "\x7b\"status_code\":400,\"status\":\"Bad Request\",\"error\":\x7b\"message\":\"clients must not be empty\"\x7d,\"data\":\x7b\x7d\x7d",
          "application/json"⟩, [])
    ∧ (c5Handler {} { User := some ⟨1, "alice"⟩, Clients := [], ServiceName := "web" }).2.2
      = [FWCall.denyAccess ["0.0.0.0/0", "::/0"] "web" (some "alice")] :=
  ⟨by decide, by decide⟩

/-- C5 amended: for every `/close` request whose decoded `clients` list is
empty, with a valid mTLS user and a non-empty service name, the pipeline
answers 400 "clients must not be empty" from request validation and the
handler — and hence `FirewallManager.DenyAccess` — is never invoked,
whatever the parse, service-store and deny behaviours are. -/
theorem c5_amended_empty_clients_400_no_deny (u : UserRow) (s : String) (hs : s ≠ "")
    (parse : List String → Except String (List String))
    (svcLoad : String → Except DBErr Service) (denyErr : Option String)
    (ctx0 : Ctx) (req0 : CloseRequest) :
    Handle (c5Pipeline u s) (some CloseRequest.Validate)
        (CloseHandler parse svcLoad denyErr) ctx0 req0
      = (some ⟨400,
          strBytes "\x7b\"status_code\":400,\"status\":\"Bad Request\",\"error\":\x7b\"message\":\"clients must not be empty\"\x7d,\"data\":\x7b\x7d\x7d",
          "application/json"⟩, []) := by
  have hsb : (s == "") = false := beq_eq_false_iff_ne.mpr hs
  have hval : CloseRequest.Validate { User := some u, Clients := [], ServiceName := s }
      = some (.typed ⟨400, "clients must not be empty"⟩) := by
    unfold CloseRequest.Validate
    simp [hsb]
  show handleStage2 (c5Pipeline u s) (some CloseRequest.Validate)
      (CloseHandler parse svcLoad denyErr) ctx0 { req0 with User := some u } = _
  show handleStage3 (c5Pipeline u s) (some CloseRequest.Validate)
      (CloseHandler parse svcLoad denyErr) ctx0
      { User := some u, Clients := [], ServiceName := s } = _
  unfold handleStage3
  simp only [hval]
  show (responsePhase (c5Pipeline u s) ctx0
      (handleErrGo ErrorLevel.full createInstanceResp
        (GoError.typed ⟨400, "clients must not be empty"⟩)), ([] : List FWCall)) = _
  rfl

/-- Every path of stages 4-5 ends in a call to `responsePhase`. -/
theorem handleStages45_eq_responsePhase {Req : Type} (p : Pipeline Req)
    (handlerFn : Ctx → Req → Option RespEnv × Option GoError × List FWCall)
    (ctx : Ctx) (req : Req) :
    ∃ ctx2 resp calls,
      handleStages45 p handlerFn ctx req = (responsePhase p ctx2 resp, calls) := by
  unfold handleStages45
  rcases hrp : runReqProcessors p.errorLevel p.requestProcessors ctx req createInstanceResp
    with ⟨c, r⟩ | ⟨c, r⟩
  · exact ⟨c, r, [], rfl⟩
  · exact ⟨c, _, _, rfl⟩

/-- Every path of stage 3 ends in a call to `responsePhase`. -/
theorem handleStage3_eq_responsePhase {Req : Type} (p : Pipeline Req)
    (validate : Option (Req → Option GoError))
    (handlerFn : Ctx → Req → Option RespEnv × Option GoError × List FWCall)
    (ctx : Ctx) (req : Req) :
    ∃ ctx2 resp calls,
      handleStage3 p validate handlerFn ctx req = (responsePhase p ctx2 resp, calls) := by
  unfold handleStage3
  cases validate with
  | none => exact handleStages45_eq_responsePhase p handlerFn ctx req
  | some v =>
      cases hv : v req with
      | none =>
          simp only [hv]
          exact handleStages45_eq_responsePhase p handlerFn ctx req
      | some e =>
          simp only [hv]
          exact ⟨ctx, _, [], rfl⟩

/-- Every path of stage 2 ends in a call to `responsePhase`. -/
theorem handleStage2_eq_responsePhase {Req : Type} (p : Pipeline Req)
    (validate : Option (Req → Option GoError))
    (handlerFn : Ctx → Req → Option RespEnv × Option GoError × List FWCall)
    (ctx : Ctx) (req : Req) :
    ∃ ctx2 resp calls,
      handleStage2 p validate handlerFn ctx req = (responsePhase p ctx2 resp, calls) := by
  unfold handleStage2
  cases hs : p.serializer with
  | none => exact handleStage3_eq_responsePhase p validate handlerFn ctx req
  | some s =>
      rcases hd : s.deserialize ctx req with ⟨c2, r2, e2⟩
      simp only [hd]
      cases e2 with
      | none => exact handleStage3_eq_responsePhase p validate handlerFn c2 r2
      | some e => exact ⟨c2, _, [], rfl⟩

/-- Every path of `Handle` ends in a call to `responsePhase`. -/
theorem Handle_eq_responsePhase {Req : Type} (p : Pipeline Req)
    (validate : Option (Req → Option GoError))
    (handlerFn : Ctx → Req → Option RespEnv × Option GoError × List FWCall)
    (ctx0 : Ctx) (req0 : Req) :
    ∃ ctx2 resp calls,
      Handle p validate handlerFn ctx0 req0 = (responsePhase p ctx2 resp, calls) := by
  unfold Handle
  cases ha : p.auth with
  | none => exact handleStage2_eq_responsePhase p validate handlerFn ctx0 req0
  | some a =>
      rcases hr : a ctx0 req0 with ⟨c1, r1, e1⟩
      simp only [hr]
      cases e1 with
      | none => exact handleStage2_eq_responsePhase p validate handlerFn c1 r1
      | some e => exact ⟨c1, _, [], rfl⟩

/-- When the serializer is absent or its `Serialize` never errors, the
deferred response phase always writes. -/
theorem responsePhase_isSome {Req : Type} (p : Pipeline Req)
    (hser : p.serializer = Option.none ∨ ∃ s, p.serializer = some s ∧
      ∀ c r, (s.serialize c r).2.2 = Option.none)
    (ctx : Ctx) (resp : RespEnv) : (responsePhase p ctx resp).isSome = true := by
  unfold responsePhase
  rcases hser with h | ⟨s, hs, hok⟩
  · simp [h]
  · simp only [hs]
    have hok2 := hok ctx { resp with headers := [] }
    rcases hsz : s.serialize ctx { resp with headers := [] } with ⟨c2, r2, e2⟩
    rw [hsz] at hok2
    simp only at hok2
    subst hok2
    simp [hsz]

/-- C5 witness: the amended theorem applied at a concrete user, service
name and request. -/
theorem c5_amended_empty_clients_400_no_deny_witness :
    ("web" ≠ "")
    ∧ Handle (c5Pipeline ⟨2, "bob"⟩ "web") (some CloseRequest.Validate)
        (CloseHandler (fun cs => .ok cs) (fun _ => .ok ⟨"web", 8080, 3600⟩) Option.none)
        {} {}
      = (some ⟨400,
          strBytes "\x7b\"status_code\":400,\"status\":\"Bad Request\",\"error\":\x7b\"message\":\"clients must not be empty\"\x7d,\"data\":\x7b\x7d\x7d",
          "application/json"⟩, []) :=
  ⟨by decide,
    c5_amended_empty_clients_400_no_deny ⟨2, "bob"⟩ "web" (by decide)
      (fun cs => .ok cs) (fun _ => .ok ⟨"web", 8080, 3600⟩) Option.none {} {}⟩

/-- C7 counterexample: the claim states that the pipeline writes exactly
one response per request.  When response serialization fails, the deferred
block records the error and returns before the write stage, so nothing is
written. -/
theorem c7_serialize_error_skips_write :
    Handle c7BadPipeline Option.none c7Handler0 {} () = (Option.none, []) := by
  decide

/-- C7 amended: (i) whenever the pipeline has no serializer, or its
response serialization never errors, exactly one response is written; (ii)
a request-stage error (authentication here) skips all remaining
request-processing stages — the result does not depend on the serializer's
request half, the validator, the processors or the handler, and no
firewall call is made — while the response stages (`responsePhase`) still
run on the error-funnelled response, so the recorded error is serialized
with whatever processors were declared. -/
theorem c7_amended_pipeline_write_and_skip :
    (∀ (Req : Type) (p : Pipeline Req) (validate : Option (Req → Option GoError))
        (handlerFn : Ctx → Req → Option RespEnv × Option GoError × List FWCall)
        (ctx0 : Ctx) (req0 : Req),
        (p.serializer = Option.none ∨ ∃ s, p.serializer = some s ∧
          ∀ c r, (s.serialize c r).2.2 = Option.none) →
        ((Handle p validate handlerFn ctx0 req0).1).isSome = true)
    ∧ (∀ (Req : Type) (p : Pipeline Req) (validate : Option (Req → Option GoError))
        (handlerFn : Ctx → Req → Option RespEnv × Option GoError × List FWCall)
        (ctx0 : Ctx) (req0 : Req) (a : Ctx → Req → Ctx × Req × Option GoError)
        (ctx1 : Ctx) (req1 : Req) (e : GoError),
        p.auth = some a → a ctx0 req0 = (ctx1, req1, some e) →
        Handle p validate handlerFn ctx0 req0
          = (responsePhase p ctx1 (handleErrGo p.errorLevel createInstanceResp e), [])) := by
  constructor
  · intro Req p validate handlerFn ctx0 req0 hser
    obtain ⟨ctx2, resp, calls, hshape⟩ :=
      Handle_eq_responsePhase p validate handlerFn ctx0 req0
    rw [hshape]
    exact responsePhase_isSome p hser ctx2 resp
  · intro Req p validate handlerFn ctx0 req0 a ctx1 req1 e ha hr
    unfold Handle
    simp only [ha, hr]

/-- C7 witness: the amended theorem applied to a concrete pipeline (JSON
serializer, failing authenticator): the response is written, and it is
exactly the response phase applied to the error-funnelled envelope. -/
theorem c7_amended_pipeline_write_and_skip_witness :
    ((∃ s, c7GoodPipeline.serializer = some s ∧
        ∀ c r, (s.serialize c r).2.2 = Option.none)
      ∧ c7GoodPipeline.auth = some c7Auth
      ∧ c7Auth {} () = ({}, (), some (.typed ⟨401, "failed TLS authentication"⟩)))
    ∧ ((Handle c7GoodPipeline Option.none c7Handler0 {} ()).1).isSome = true
    ∧ Handle c7GoodPipeline Option.none c7Handler0 {} ()
        = (responsePhase c7GoodPipeline {}
            (handleErrGo c7GoodPipeline.errorLevel createInstanceResp
              (.typed ⟨401, "failed TLS authentication"⟩)), []) :=
  ⟨⟨⟨c7GoodSerializer, rfl, fun _ _ => rfl⟩, rfl, rfl⟩,
    c7_amended_pipeline_write_and_skip.1 Unit c7GoodPipeline Option.none c7Handler0 {} ()
      (Or.inr ⟨c7GoodSerializer, rfl, fun _ _ => rfl⟩),
    c7_amended_pipeline_write_and_skip.2 Unit c7GoodPipeline Option.none c7Handler0 {} ()
      c7Auth {} () (.typed ⟨401, "failed TLS authentication"⟩) rfl rfl⟩

/-- C8 counterexample: the claim states that with error level `none` the
body of an error response is empty.  On the `/join` pipeline configured
with level `none`, a 401 authentication failure still produces a non-empty
body: the JSON envelope (with the error dropped), base58-encoded by the
declared response processors. -/
theorem c8_level_none_body_not_empty :
    Handle c8JoinPipeline (some JoinRequest.Validate) c8Handler {} {}
      = (some ⟨401,
          strBytes "3FTZfMxoJKoHar7uM5R3dm8hkMwyz7jP2NAWag5E1VSkzA8CiHGbpC9L3NXHup5yQnNDtNXRW",
          "application/octet-stream"⟩, [])
    ∧ strBytes "3FTZfMxoJKoHar7uM5R3dm8hkMwyz7jP2NAWag5E1VSkzA8CiHGbpC9L3NXHup5yQnNDtNXRW"
        ≠ ([] : Bytes) :=
  ⟨by decide, by decide⟩

/-- C8 amended: the error funnel follows the configured level for every
error response: level `none` drops the typed error entirely, so no error
message reaches the body (the body is empty when no serializer or
processor contributes data — with the JSON serializer it is the serialized
envelope without error information); level `minimal` replaces the message
with the generic string per status class ("authentication failed" for 401,
"invalid request" for 400, "request failed" otherwise); level `full`
passes the original message through.  Stated on a pipeline with neither
serializer nor processors, for an authentication error with a non-zero
status code. -/
theorem c8_amended_sanitization_per_level {Req : Type} (lvl : ErrorLevel)
    (a : Ctx → Req → Ctx × Req × Option GoError)
    (validate : Option (Req → Option GoError))
    (handlerFn : Ctx → Req → Option RespEnv × Option GoError × List FWCall)
    (ctx0 ctx1 : Ctx) (req0 req1 : Req) (e : HTTPError)
    (ha : a ctx0 req0 = (ctx1, req1, some (.typed e)))
    (hsc : (e.statusCode == 0) = false)
    (hrd : ctx1.responseData = Option.none) :
    Handle { auth := some a, errorLevel := lvl } validate handlerFn ctx0 req0
      = (some ⟨e.statusCode,
          strBytes (match lvl with
            | .none => ""
            | .minimal =>
                if e.statusCode == 401 then "authentication failed"
                else if e.statusCode == 400 then "invalid request"
                else "request failed"
            | .full => e.message),
          "application/octet-stream"⟩, []) := by
  have hne : ¬(e.statusCode = 0) := by simpa using hsc
  unfold Handle
  simp only [ha]
  unfold responsePhase runRespProcessors writeResponse handleErrGo sanitizeError
  cases lvl with
  | none =>
      simp [hsc, hne, getResponseData, hrd, RespEnv.GetStatusCode, createInstanceResp,
        RespEnv.SetStatusCode, headerGet, strBytes]
  | minimal =>
      by_cases h401 : e.statusCode = 401
      · simp [hsc, hne, h401, getResponseData, hrd, RespEnv.GetStatusCode,
          createInstanceResp, RespEnv.SetStatusCode, headerGet, strBytes]
      · by_cases h400 : e.statusCode = 400
        · simp [hsc, hne, h401, h400, getResponseData, hrd, RespEnv.GetStatusCode,
            createInstanceResp, RespEnv.SetStatusCode, headerGet, strBytes]
        · simp [hsc, hne, h401, h400, getResponseData, hrd, RespEnv.GetStatusCode,
            createInstanceResp, RespEnv.SetStatusCode, headerGet, strBytes]
  | full =>
      simp [hsc, hne, getResponseData, hrd, RespEnv.GetStatusCode, createInstanceResp,
        RespEnv.SetStatusCode, headerGet, strBytes]

/-- C8 witness: the amended theorem applied at level `minimal` to a
concrete 401 failure. -/
theorem c8_amended_sanitization_per_level_witness :
    (c8WitnessAuth {} () = ({}, (), some (GoError.typed ⟨401, "invite not found"⟩))
      ∧ (((401 : Nat) == 0) = false)
      ∧ (({} : Ctx).responseData = Option.none))
    ∧ Handle c8WitnessPipeline Option.none
          (fun _ _ => (Option.none, Option.none, [])) {} ()
      = (some ⟨401, strBytes "authentication failed", "application/octet-stream"⟩, []) :=
  ⟨⟨rfl, by decide, rfl⟩,
    c8_amended_sanitization_per_level ErrorLevel.minimal c8WitnessAuth
      Option.none (fun _ _ => (Option.none, Option.none, [])) {} {} () ()
      ⟨401, "invite not found"⟩ rfl (by decide) rfl⟩

/-- C10: the SELECT statement of `ClientCertificates` carries a stray
closing parenthesis after `cc.renewal_token_expires_at`, so the database
engine rejects it for every filter and every database state, and every
`ClientCertificate.Load` — by ID, serial number or renewal token — fails
as well. -/
theorem c10_client_certificates_always_error :
    (∀ (db : DB) (conds : List FilterCond) (limit : Nat),
        ClientCertificates db conds limit
          = .error (.loadError "client certificates" "SQL syntax error"))
    ∧ ∀ (cc : ClientCertificate) (db : DB), (cc.Load db).isOk = false := by
  have hq : ∀ (w l : String), sqlParensBalanced (clientCertsQuery w l) = false := by
    intro w l
    show parenScan (clientCertsQuery w l).data 0 = false
    have hdata : (clientCertsQuery w l).data
        = ("SELECT\n\t\t\tcc.id, cc.created_at, cc.updated_at, cc.expires_at, cc.serial_number, cc.user_id,\n\t\t\tcc.site_id, cc.renewal_token, cc.renewal_token_expires_at)\n\t\tFROM client_certs cc\n\t\t" : String).data
          ++ (w.data ++ ((" ORDER BY cc.expires_at ASC " : String).data ++ l.data)) := by
      show ((("SELECT\n\t\t\tcc.id, cc.created_at, cc.updated_at, cc.expires_at, cc.serial_number, cc.user_id,\n\t\t\tcc.site_id, cc.renewal_token, cc.renewal_token_expires_at)\n\t\tFROM client_certs cc\n\t\t" : String).data
        ++ w.data) ++ (" ORDER BY cc.expires_at ASC " : String).data) ++ l.data = _
      simp [List.append_assoc]
    rw [hdata]
    refine parenScan_unbalanced _ ?_ ?_ _
    · decide
    · decide
  have hcc : ∀ (db : DB) (conds : List FilterCond) (limit : Nat),
      ClientCertificates db conds limit
        = .error (.loadError "client certificates" "SQL syntax error") := by
    intro db conds limit
    unfold ClientCertificates
    simp [hq]
  refine ⟨hcc, ?_⟩
  intro cc db
  unfold ClientCertificate.Load
  cases hf : cc.createFilter db 1 with
  | error e => rfl
  | ok pr =>
      rcases pr with ⟨conds, filterStr⟩
      simp only [hcc db conds 1]
      rfl

end Sesame
